import Mathlib

/-!
Verification of `flytekit/annotated/workflow.py` (workflow compilation and
local execution of compiled workflows).

The file `src/flytekit/annotated/workflow.py` is the authority for the
`Workflow` class (`_local_execute`, `__call__`) and the `workflow`
decorator.  Collaborators that this file imports but that are not present
under `src/` (the engine conversion functions, the `Promise` class, the
context manager, the interface transformer, the constants and the wire
models) are modelled from the spec; each such definition carries a doc
comment starting with "Modelled from the spec:".
-/

/-- Python native values, as far as this core manipulates them: scalar
inputs handed to a workflow call, `None`, and the dictionary assembled from
a literal map on the way out. -/
inductive PyVal where
  | int : Int → PyVal
  | str : String → PyVal
  | dict : List (String × PyVal) → PyVal
  | none : PyVal

/-- Modelled from the spec: semantic literal types of the platform's typed
literal representation (the type-marshalling subsystem is an external
collaborator; two scalar types suffice for this core). -/
inductive LiteralType where
  | int : LiteralType
  | str : LiteralType
deriving DecidableEq

/-- Modelled from the spec: a platform literal (the wire/storage model for
literals is out of scope; scalars suffice for this core). -/
inductive Literal where
  | int : Int → Literal
  | str : String → Literal
deriving DecidableEq

/-- Python exceptions raised by this core or by the collaborators it calls.
`exception msg` stands for a bare `raise Exception(msg)`. -/
inductive PyErr where
  | exception : String → PyErr
  | typeMismatch : PyVal → LiteralType → PyErr
  | keyError : String → PyErr
  | typeError : String → PyErr
  | attributeError : String → PyErr
  | indexError : PyErr

/-- Modelled from the spec: `flytekit.engine.python_value_to_idl_literal`
(not under `src/`): "(context, nativeValue, declaredType) → Literal";
"Failure surfaces as a type-conversion error".  A native value convertible
to the declared type yields the corresponding literal, anything else fails. -/
def python_value_to_idl_literal (v : PyVal) (t : LiteralType) : Except PyErr Literal :=
  match v, t with
  | .int i, .int => .ok (.int i)
  | .str s, .str => .ok (.str s)
  | _, _ => .error (.typeMismatch v t)

/-- Modelled from the spec: conversion of one platform literal back to the
native value it denotes. -/
def idl_literal_to_python_value : Literal → PyVal
  | .int i => .int i
  | .str s => .str s

/-- Modelled from the spec: `flytekit.engine.idl_literal_map_to_python_value`
(not under `src/`): "(context, LiteralMap) → nativeValues"; per the spec's
testable property "for all workflows with a single declared output, the
invoker returns the bare native value (not a singleton container)", a
one-entry literal map converts to the bare native value, and a larger map
converts to a dictionary of native values. -/
def idl_literal_map_to_python_value (m : List (String × Literal)) : PyVal :=
  match m with
  | [(_, l)] => idl_literal_to_python_value l
  | _ => .dict (m.map (fun kv => (kv.1, idl_literal_to_python_value kv.2)))

/-- Modelled from the spec: a `Promise` during local execution — "ready"
(literal-valued), identified by the variable name it represents
(`flytekit.annotated.promise` is not under `src/`). -/
structure Promise where
  var : String
  val : Literal

/-- Modelled from the spec: a pending symbolic reference to a node output
(node id + variable name), `flytekit.common.promise.NodeOutput` /
`flytekit.models.types.OutputReference` (not under `src/`). -/
structure OutputReference where
  node_id : String
  var : String
deriving DecidableEq

/-- Modelled from the spec: the sentinel "global input" node id
(`flytekit.common.constants.GLOBAL_INPUT_NODE_ID`, not under `src/`),
"representing value supplied by the caller at invocation time". -/
def GLOBAL_INPUT_NODE_ID : String := ""

/-- Modelled from the spec: a registered unit of work in a compiled
workflow graph; opaque to this core beyond its id. -/
structure Node where
  id : String
deriving DecidableEq

/-- Modelled from the spec: `BindingData` wraps a promise reference
(`flytekit.models.literals.BindingData`, not under `src/`); the source only
ever builds it with the `promise=` field. -/
structure BindingData where
  promise : OutputReference
deriving DecidableEq

/-- Modelled from the spec: a `Binding` pairs a destination variable name
with `BindingData` (`flytekit.models.literals.Binding`, not under `src/`). -/
structure Binding where
  var : String
  binding : BindingData
deriving DecidableEq

/-- Modelled from the spec: resource types of the identifier scheme
(`flytekit.models.core.identifier.ResourceType`, not under `src/`). -/
inductive ResourceType where
  | UNSPECIFIED : ResourceType
  | TASK : ResourceType
  | WORKFLOW : ResourceType
  | LAUNCH_PLAN : ResourceType
deriving DecidableEq

/-- Modelled from the spec: the identifier scheme, "opaque value carrying
resource-type/project/domain/name/version"
(`flytekit.models.core.identifier.Identifier`, not under `src/`). -/
structure Identifier where
  resource_type : ResourceType
  project : String
  domain : String
  name : String
  version : String
deriving DecidableEq

/-- Modelled from the spec: one variable of a typed interface; only its
declared semantic type matters to this core. -/
structure Variable where
  type : LiteralType
deriving DecidableEq

/-- Modelled from the spec: the typed input/output contract — "ordered
mapping from parameter name", "split into inputs and outputs sub-maps";
ordered Python dicts are modelled as association lists in declaration
order. -/
structure TypedInterface where
  inputs : List (String × Variable)
  outputs : List (String × Variable)
deriving DecidableEq

/-- The shapes a workflow function body can return when replayed locally:
a single Promise, a tuple of Promises, or `None`.  The source branches on
the declared output count, not on this shape, so mismatched shapes surface
as Python attribute/subscript errors. -/
inductive FnOutputs where
  | promise : Promise → FnOutputs
  | tuple : List Promise → FnOutputs
  | none : FnOutputs

/-- A user-authored Python workflow function, duck-typed in the source: at
compile time it is called with pending `OutputReference`s and registers
nodes in the ambient compilation state while returning the traced outputs;
at local-execution time it is called with ready `Promise`s and computes
values.  `sig` is the data the decorator's interface transformation reads
off the function's signature. -/
structure PyFunction where
  sig : TypedInterface
  call_compile : List (String × OutputReference) → List Node × List OutputReference
  call_local : List (String × Promise) → FnOutputs

/-- Modelled from the spec: the composition
`transform_interface_to_typed_interface (transform_signature_to_interface sig)`
(`flytekit.annotated.interface` is not under `src/`) — "derives a typed
input/output interface from a function signature".  We model it as
returning the typed interface carried by the function. -/
def transform_signature_to_typed_interface (fn : PyFunction) : TypedInterface :=
  fn.sig

/-- The compiled artifact held by a Workflow instance: `SdkWorkflow` as the
source constructs it (`_SdkWorkflow(inputs=None, outputs=None, nodes=...,
id=..., metadata=None, metadata_defaults=None, interface=...,
output_bindings=...)`); the fields the source passes as `None` are elided. -/
structure SdkWorkflow where
  nodes : List Node
  id : Identifier
  interface : TypedInterface
  output_bindings : List Binding

/-- The `Workflow` object: wraps the original function and the compiled
`SdkWorkflow`; the decorator additionally sets an `id` attribute on the
instance. -/
structure Workflow where
  workflow_function : PyFunction
  sdk_workflow : SdkWorkflow
  id : Identifier

/-- Modelled from the spec: the compilation state owned by a compilation
context (`flytekit.annotated.context_manager` is not under `src/`). -/
structure CompilationState where
  nodes : List Node

/-- Modelled from the spec: execution modes of the execution state
(`ExecutionState.Mode`); only the one the source uses is needed. -/
inductive ExecutionMode where
  | LOCAL_WORKFLOW_EXECUTION : ExecutionMode

/-- Modelled from the spec: the current `FlyteContext` — stack-scoped state
carrying an optional live compilation state and the current execution
mode (`flytekit.annotated.context_manager` is not under `src/`). -/
structure FlyteContext where
  compilation_state : Option CompilationState
  execution_mode : Option ExecutionMode

/-- Modelled from the spec: `ctx.new_execution_context(mode=...)` — enter a
fresh execution context carrying the requested mode. -/
def new_execution_context (ctx : FlyteContext) (mode : ExecutionMode) : FlyteContext :=
  { ctx with execution_mode := some mode }

/-- Python dict assignment `m[k] = v` on an ordered dict modelled as an
association list: replace in place when the key is present, append
otherwise. -/
def dictInsert (m : List (String × α)) (k : String) (v : α) : List (String × α) :=
  if m.any (fun kv => kv.1 == k) then
    m.map (fun kv => if kv.1 == k then (k, v) else kv)
  else
    m ++ [(k, v)]

/-- The dict comprehension in the `try` block of `Workflow._local_execute`:
`{k: python_value_to_idl_literal(ctx, v, interface.inputs[k].type) for k, v
in kwargs.items()}`.  Evaluation is in order; a missing input name raises a
`KeyError` and a conversion failure propagates the conversion error —
either way the `except` clause logs and re-raises the same exception. -/
def convert_inputs (inputs : List (String × Variable)) : List (String × PyVal) → Except PyErr (List (String × Literal))
  | [] => .ok []
  | (k, v) :: rest =>
    match inputs.lookup k with
    | some var_obj =>
      match python_value_to_idl_literal v var_obj.type with
      | .ok l => (convert_inputs inputs rest).map (fun ls => (k, l) :: ls)
      | .error e => .error e
    | Option.none => .error (.keyError k)

/-- The loop `for idx, var_name in enumerate(output_names):
output_literal_map[var_name] = function_outputs[idx].val` of
`Workflow._local_execute`; indexing past the end of the returned tuple
raises an `IndexError`. -/
def build_output_literal_map (ps : List Promise) : List (Nat × String) → List (String × Literal) → Except PyErr (List (String × Literal))
  | [], m => .ok m
  | (idx, var_name) :: rest, m =>
    match ps.get? idx with
    | some p => build_output_literal_map ps rest (dictInsert m var_name p.val)
    | Option.none => .error .indexError

/-- `Workflow._local_execute(self, ctx, **kwargs)`: convert the native
kwargs to literals (log and re-raise on failure), wrap them as ready
Promises, re-invoke the function body, then collect the result by declared
output count: more than one output indexes the returned tuple positionally,
exactly one unwraps `function_outputs.val`, zero returns `None`; a
non-empty literal map is converted back to native values by the engine.
The `ctx` argument is threaded through to the engine collaborators, which
this model elides. -/
def Workflow.local_execute (w : Workflow) (_ctx : FlyteContext) (kwargs : List (String × PyVal)) : Except PyErr PyVal := do
  let inputs_as_dict_of_literals ← convert_inputs w.sdk_workflow.interface.inputs kwargs
  let inputs_as_wrapped_promises := inputs_as_dict_of_literals.map (fun kv => (kv.1, Promise.mk kv.1 kv.2))
  let function_outputs := w.workflow_function.call_local inputs_as_wrapped_promises
  let output_names := w.sdk_workflow.interface.outputs.map Prod.fst
  if 1 < output_names.length then
    match function_outputs with
    | .tuple ps => do
      let output_literal_map ← build_output_literal_map ps output_names.enum []
      pure (idl_literal_map_to_python_value output_literal_map)
    | .promise _ => .error (.typeError "Promise object is not subscriptable")
    | .none => .error (.typeError "NoneType object is not subscriptable")
  else if output_names.length = 1 then
    match function_outputs with
    | .promise p => pure (idl_literal_map_to_python_value (dictInsert [] output_names.headI p.val))
    | .tuple _ => .error (.attributeError "tuple object has no attribute val")
    | .none => .error (.attributeError "NoneType object has no attribute val")
  else
    pure PyVal.none

/-- `Workflow.__call__(self, *args, **kwargs)`: positional arguments are
rejected first; then a live compilation state in the current context is
rejected (sub-workflows are reserved); otherwise a fresh local execution
context is entered and `_local_execute` runs. -/
def Workflow.call (w : Workflow) (ctx : FlyteContext) (args : List PyVal) (kwargs : List (String × PyVal)) : Except PyErr PyVal :=
  if 0 < args.length then
    .error (.exception "not allowed")
  else
    match ctx.compilation_state with
    | some _ => .error (.exception "not implemented")
    | Option.none =>
      Workflow.local_execute w (new_execution_context ctx ExecutionMode.LOCAL_WORKFLOW_EXECUTION) kwargs

/-- The dict comprehension `{k: OutputReference(GLOBAL_INPUT_NODE_ID, k)
for k in interface.inputs.keys()}` of the `workflow` decorator: one pending
reference per declared input, pairing the sentinel global-input node id
with the input's own variable name. -/
def make_input_kwargs (interface : TypedInterface) : List (String × OutputReference) :=
  interface.inputs.map (fun kv => (kv.1, OutputReference.mk GLOBAL_INPUT_NODE_ID kv.1))

/-- The loop `for i, out in enumerate(workflow_outputs):
output_name = output_names[i]; bindings.append(Binding(var=output_name,
binding=BindingData(promise=out)))` of the `workflow` decorator; indexing
past the declared output names raises an `IndexError`. -/
def build_bindings_loop (output_names : List String) : List (Nat × OutputReference) → Except PyErr (List Binding)
  | [] => .ok []
  | (i, out) :: rest =>
    match output_names.get? i with
    | some output_name =>
      (build_bindings_loop output_names rest).map (fun bs => Binding.mk output_name (BindingData.mk out) :: bs)
    | Option.none => .error .indexError

/-- The guarded binding construction of the `workflow` decorator:
`if len(output_names) > 0:` run the enumeration loop, else no bindings. -/
def build_output_bindings (output_names : List String) (workflow_outputs : List OutputReference) : Except PyErr (List Binding) :=
  if 0 < output_names.length then
    build_bindings_loop output_names workflow_outputs.enum
  else
    .ok []

/-- The `workflow` decorator's `wrapper(fn)`: derive the typed interface
from the signature, enter a fresh compilation context, invoke the function
body with one pending global-input reference per declared input, collect
the registered nodes and the traced outputs, build the output bindings,
assign the hard-coded identifier, package the `SdkWorkflow` and wrap it in
a `Workflow` instance whose `id` attribute is also set.  (The source's
`default_inputs` and `input_parameter_models` locals are computed but never
used and are elided; the no-argument `@workflow()` plumbing at the end of
the decorator is likewise elided.) -/
def workflow (fn : PyFunction) : Except PyErr Workflow := do
  let interface := transform_signature_to_typed_interface fn
  let input_kwargs := make_input_kwargs interface
  let traced := fn.call_compile input_kwargs
  let all_nodes := traced.1
  let workflow_outputs := traced.2
  let output_names := interface.outputs.map Prod.fst
  let bindings ← build_output_bindings output_names workflow_outputs
  let workflow_id : Identifier := Identifier.mk ResourceType.WORKFLOW "proj" "dom" "moreblah" "1"
  let sdk_workflow : SdkWorkflow := SdkWorkflow.mk all_nodes workflow_id interface bindings
  pure (Workflow.mk fn sdk_workflow workflow_id)

/-- One invocation of the callable Workflow object, with the object's state
threaded through: `__call__` and `_local_execute` only read
`self._workflow_function` and `self._sdk_workflow` and assign to neither,
so the object after the call is the object before it. -/
def Workflow.call_st (w : Workflow) (ctx : FlyteContext) (args : List PyVal) (kwargs : List (String × PyVal)) : Except PyErr PyVal × Workflow :=
  (Workflow.call w ctx args kwargs, w)

/-- The arguments of one invocation of a Workflow instance. -/
structure CallArgs where
  ctx : FlyteContext
  args : List PyVal
  kwargs : List (String × PyVal)

/-- Any number of subsequent invocations of one Workflow instance, each
threading the instance state; returns the final instance state and the
results in order. -/
def run_invocations : Workflow → List CallArgs → Workflow × List (Except PyErr PyVal)
  | w, [] => (w, [])
  | w, c :: cs =>
    let r := Workflow.call_st w c.ctx c.args c.kwargs
    let rest := run_invocations r.2 cs
    (rest.1, r.1 :: rest.2)

/-- A context with no compilation state and no execution state. -/
def ctx0 : FlyteContext := FlyteContext.mk Option.none Option.none

/-- A context in which a compilation state is live. -/
def ctxComp : FlyteContext := FlyteContext.mk (some (CompilationState.mk [])) Option.none

/-- The identifier value the decorator hard-codes. -/
def wfId0 : Identifier := Identifier.mk ResourceType.WORKFLOW "proj" "dom" "moreblah" "1"

/-- A workflow function with one declared input and two declared outputs
whose compile-time trace registers one node and returns two pending
references, and whose local replay returns a 2-tuple of ready promises. -/
def fnEx2 : PyFunction := PyFunction.mk
  (TypedInterface.mk [("x", Variable.mk LiteralType.int)]
    [("o0", Variable.mk LiteralType.int), ("o1", Variable.mk LiteralType.int)])
  (fun _ => ([Node.mk "n0"], [OutputReference.mk "n0" "t0", OutputReference.mk "n0" "t1"]))
  (fun _ => FnOutputs.tuple [Promise.mk "t0" (Literal.int 7), Promise.mk "t1" (Literal.int 8)])

/-- The Workflow instance the decorator produces for `fnEx2`. -/
def wEx2compiled : Workflow := Workflow.mk fnEx2
  (SdkWorkflow.mk [Node.mk "n0"] wfId0 fnEx2.sig
    [Binding.mk "o0" (BindingData.mk (OutputReference.mk "n0" "t0")),
     Binding.mk "o1" (BindingData.mk (OutputReference.mk "n0" "t1"))])
  wfId0

/-- A workflow function with two declared outputs whose compile-time trace
returns only one value: the arity of the returned tuple disagrees with the
declared interface. -/
def fnC5 : PyFunction := PyFunction.mk
  (TypedInterface.mk [("x", Variable.mk LiteralType.int)]
    [("o0", Variable.mk LiteralType.int), ("o1", Variable.mk LiteralType.int)])
  (fun _ => ([], [OutputReference.mk "n0" "t0"]))
  (fun _ => FnOutputs.none)

/-- The Workflow instance the decorator produces for `fnC5`: registration
succeeds with a single output binding for two declared outputs. -/
def wC5compiled : Workflow := Workflow.mk fnC5
  (SdkWorkflow.mk [] wfId0 fnC5.sig
    [Binding.mk "o0" (BindingData.mk (OutputReference.mk "n0" "t0"))])
  wfId0

/-- A one-input one-output signature shared by the two C6 fixtures. -/
def sigC6 : TypedInterface := TypedInterface.mk
  [("a", Variable.mk LiteralType.int)] [("o0", Variable.mk LiteralType.int)]

/-- A workflow function over `sigC6` with a constant compile-time trace. -/
def fnC6a : PyFunction := PyFunction.mk sigC6
  (fun _ => ([Node.mk "n1"], [OutputReference.mk "n1" "z"]))
  (fun _ => FnOutputs.none)

/-- A workflow function over `sigC6` whose compile-time trace agrees with
`fnC6a` on the synthesized global-input kwargs but differs elsewhere. -/
def fnC6b : PyFunction := PyFunction.mk sigC6
  (fun kw => if kw.length = 1 then ([Node.mk "n1"], [OutputReference.mk "n1" "z"]) else ([], []))
  (fun _ => FnOutputs.promise (Promise.mk "q" (Literal.int 0)))

/-- The Workflow instance the decorator produces for `fnC6a`. -/
def wC6compiled : Workflow := Workflow.mk fnC6a
  (SdkWorkflow.mk [Node.mk "n1"] wfId0 sigC6
    [Binding.mk "o0" (BindingData.mk (OutputReference.mk "n1" "z"))])
  wfId0

/-- C2: supplying at least one positional argument to a compiled workflow
raises the `not allowed` invocation error, whatever the workflow, the
context and the keyword arguments. -/
theorem C2_positional_rejected (w : Workflow) (ctx : FlyteContext)
    (args : List PyVal) (kwargs : List (String × PyVal)) (h : 0 < args.length) :
    Workflow.call w ctx args kwargs = .error (.exception "not allowed") := by
  unfold Workflow.call
  simp [h]

/-- Witness for C2 at a concrete invocation with one positional argument. -/
theorem C2_positional_rejected_witness :
    Workflow.call wEx2compiled ctx0 [PyVal.int 1] [] = .error (.exception "not allowed") :=
  C2_positional_rejected wEx2compiled ctx0 [PyVal.int 1] [] (by decide)

/-- C3: invoking a compiled workflow with keyword arguments only while a
compilation state is live in the current context raises the
`not implemented` unsupported-nesting error; no local execution result is
produced. -/
theorem C3_nested_compilation_rejected (w : Workflow) (ctx : FlyteContext)
    (kwargs : List (String × PyVal)) (cs : CompilationState)
    (h : ctx.compilation_state = some cs) :
    Workflow.call w ctx [] kwargs = .error (.exception "not implemented") := by
  unfold Workflow.call
  simp [h]

/-- Witness for C3 at a concrete invocation under a live compilation
state. -/
theorem C3_nested_compilation_rejected_witness :
    Workflow.call wEx2compiled ctxComp [] [("x", PyVal.int 3)] = .error (.exception "not implemented") :=
  C3_nested_compilation_rejected wEx2compiled ctxComp [("x", PyVal.int 3)] (CompilationState.mk []) rfl

/-- C9: when a positional argument is supplied while a compilation state is
simultaneously live, the error raised is the positional-argument error
`not allowed`, not the unsupported-nesting error: the positional check
comes first. -/
theorem C9_positional_before_nesting (w : Workflow) (ctx : FlyteContext)
    (args : List PyVal) (kwargs : List (String × PyVal)) (cs : CompilationState)
    (hargs : 0 < args.length) (_hcs : ctx.compilation_state = some cs) :
    Workflow.call w ctx args kwargs = .error (.exception "not allowed") := by
  unfold Workflow.call
  simp [hargs]

/-- Witness for C9 at a concrete invocation with a positional argument
under a live compilation state. -/
theorem C9_positional_before_nesting_witness :
    Workflow.call wEx2compiled ctxComp [PyVal.int 1] [] = .error (.exception "not allowed") :=
  C9_positional_before_nesting wEx2compiled ctxComp [PyVal.int 1] [] (CompilationState.mk []) (by decide) rfl

/-- C8: the compiled definition held by the Workflow instance is read-only
across invocations: any sequence of invocations, in any mode (positional
rejection, nested-compilation rejection, or local execution), leaves the
instance — in particular every field of its `SdkWorkflow` — unchanged, and
every invocation reads the original definition. -/
theorem C8_definition_immutable (w : Workflow) (cs : List CallArgs) :
    (run_invocations w cs).1 = w
    ∧ (run_invocations w cs).2 = cs.map (fun c => Workflow.call w c.ctx c.args c.kwargs) := by
  induction cs with
  | nil => simp [run_invocations]
  | cons c cs ih =>
    refine ⟨?_, ?_⟩ <;> simp [run_invocations, Workflow.call_st, ih.1, ih.2]

/-- C5: evaluation of the decorator at a workflow whose compile-time trace
returns fewer values than the interface declares: registration succeeds
silently with one binding for two declared outputs, instead of raising an
arity-mismatch definition error. -/
theorem C5_missing_arity_check_eval :
    workflow fnC5 = .ok wC5compiled
    ∧ wC5compiled.sdk_workflow.interface.outputs.length = 2
    ∧ wC5compiled.sdk_workflow.output_bindings.length = 1 :=
  ⟨rfl, rfl, rfl⟩

/-- C10: any two successfully compiled workflows carry the same hard-coded
identifier (resource type WORKFLOW, project "proj", domain "dom", name
"moreblah", version "1"), which is also the id attribute set on the
instance. -/
theorem C10_hardcoded_identifier (fn₁ fn₂ : PyFunction) (w₁ w₂ : Workflow)
    (h₁ : workflow fn₁ = .ok w₁) (h₂ : workflow fn₂ = .ok w₂) :
    w₁.sdk_workflow.id = Identifier.mk ResourceType.WORKFLOW "proj" "dom" "moreblah" "1"
    ∧ w₁.sdk_workflow.id = w₂.sdk_workflow.id
    ∧ w₁.id = w₁.sdk_workflow.id := by
  unfold workflow at h₁ h₂
  cases hb₁ : build_output_bindings (fn₁.sig.outputs.map Prod.fst) (fn₁.call_compile (make_input_kwargs fn₁.sig)).2 with
  | error e => simp [transform_signature_to_typed_interface, hb₁] at h₁
  | ok bs₁ =>
    cases hb₂ : build_output_bindings (fn₂.sig.outputs.map Prod.fst) (fn₂.call_compile (make_input_kwargs fn₂.sig)).2 with
    | error e => simp [transform_signature_to_typed_interface, hb₂] at h₂
    | ok bs₂ =>
      simp [transform_signature_to_typed_interface, hb₁] at h₁
      simp [transform_signature_to_typed_interface, hb₂] at h₂
      subst h₁ h₂
      exact ⟨rfl, rfl, rfl⟩

/-- Witness for C10 at two distinct concrete workflow declarations. -/
theorem C10_hardcoded_identifier_witness :
    wEx2compiled.sdk_workflow.id = Identifier.mk ResourceType.WORKFLOW "proj" "dom" "moreblah" "1"
    ∧ wEx2compiled.sdk_workflow.id = wC6compiled.sdk_workflow.id
    ∧ wEx2compiled.id = wEx2compiled.sdk_workflow.id :=
  C10_hardcoded_identifier fnEx2 fnC6a wEx2compiled wC6compiled rfl rfl

/-- Converting a keyword list that extends an all-convertible prefix first
converts the prefix and then continues with the rest. -/
theorem convert_inputs_append (inputs : List (String × Variable)) :
    ∀ (pre rest : List (String × PyVal)) (lits : List (String × Literal)),
    convert_inputs inputs pre = .ok lits →
    convert_inputs inputs (pre ++ rest) = (convert_inputs inputs rest).map (fun ls => lits ++ ls) := by
  intro pre
  induction pre with
  | nil =>
    intro rest lits h
    simp only [convert_inputs] at h
    cases h
    simp only [List.nil_append]
    cases hr : convert_inputs inputs rest <;> simp [Except.map]
  | cons kv pre ih =>
    intro rest lits h
    obtain ⟨k, v⟩ := kv
    cases hl : inputs.lookup k with
    | none => simp [convert_inputs, hl] at h
    | some var_obj =>
      cases hc : python_value_to_idl_literal v var_obj.type with
      | error e => simp [convert_inputs, hl, hc] at h
      | ok l =>
        cases hp : convert_inputs inputs pre with
        | error e => simp [convert_inputs, hl, hc, hp, Except.map] at h
        | ok lits₀ =>
          simp only [convert_inputs, hl, hc, hp, Except.map, Except.ok.injEq] at h
          subst h
          simp only [List.cons_append, convert_inputs, hl, hc, List.append_eq]
          rw [ih rest lits₀ hp]
          cases hr : convert_inputs inputs rest <;> simp [Except.map]

/-- C4: during local execution, when converting a keyword argument's native
value to a literal fails (every earlier keyword argument converting fine),
the invoker re-raises exactly the error the conversion raised — it neither
substitutes a default nor returns normally. -/
theorem C4_conversion_error_reraised (w : Workflow) (ctx : FlyteContext)
    (pre post : List (String × PyVal)) (k : String) (v : PyVal)
    (tvar : Variable) (lits : List (String × Literal)) (e : PyErr)
    (hpre : convert_inputs w.sdk_workflow.interface.inputs pre = .ok lits)
    (hk : w.sdk_workflow.interface.inputs.lookup k = some tvar)
    (he : python_value_to_idl_literal v tvar.type = .error e) :
    Workflow.local_execute w ctx (pre ++ (k, v) :: post) = .error e := by
  have hconv : convert_inputs w.sdk_workflow.interface.inputs (pre ++ (k, v) :: post) = .error e := by
    rw [convert_inputs_append w.sdk_workflow.interface.inputs pre ((k, v) :: post) lits hpre]
    simp only [convert_inputs, hk, he, Except.map]
  unfold Workflow.local_execute
  rw [hconv]
  rfl

/-- Witness for C4: converting the string value supplied for the
int-declared input `x` fails, and the invocation surfaces exactly that
type-mismatch error. -/
theorem C4_conversion_error_reraised_witness :
    Workflow.local_execute wEx2compiled ctx0 [("x", PyVal.str "a")]
      = .error (.typeMismatch (PyVal.str "a") LiteralType.int) :=
  C4_conversion_error_reraised wEx2compiled ctx0 [] [] "x" (PyVal.str "a")
    (Variable.mk LiteralType.int) [] (.typeMismatch (PyVal.str "a") LiteralType.int) rfl rfl rfl

/-- The decorator's binding loop, run over a tuple enumerated from `k`,
succeeds when the tuple does not outrun the declared output names and
pairs names with traced outputs positionally. -/
theorem build_bindings_loop_enumFrom (names : List String) :
    ∀ (outs : List OutputReference) (k : Nat), k + outs.length ≤ names.length →
    build_bindings_loop names (List.enumFrom k outs)
      = .ok (List.zipWith (fun n o => Binding.mk n (BindingData.mk o)) (names.drop k) outs) := by
  intro outs
  induction outs with
  | nil =>
    intro k hk
    simp [build_bindings_loop, List.enumFrom]
  | cons o outs ih =>
    intro k hk
    have hklt : k < names.length := by
      simp only [List.length_cons] at hk
      omega
    simp only [List.enumFrom, build_bindings_loop, List.get?_eq_getElem?,
      List.getElem?_eq_getElem hklt]
    rw [ih (k + 1) (by simp only [List.length_cons] at hk; omega)]
    simp only [Except.map, List.drop_eq_getElem_cons hklt, List.zipWith_cons_cons]

/-- Projecting the destination variable out of positionally zipped bindings
gives back the names, when the lists have equal length. -/
theorem map_var_zipWith :
    ∀ (ns : List String) (os : List OutputReference), os.length = ns.length →
    (List.zipWith (fun n o => Binding.mk n (BindingData.mk o)) ns os).map Binding.var = ns := by
  intro ns
  induction ns with
  | nil => intro os h; simp
  | cons n ns ih =>
    intro os h
    cases os with
    | nil => simp at h
    | cons o os =>
      simp only [List.length_cons] at h
      simp [ih os (by omega)]

/-- Projecting the wrapped promise out of positionally zipped bindings
gives back the traced outputs, when the lists have equal length. -/
theorem map_promise_zipWith :
    ∀ (ns : List String) (os : List OutputReference), os.length = ns.length →
    (List.zipWith (fun n o => Binding.mk n (BindingData.mk o)) ns os).map (fun b => b.binding.promise) = os := by
  intro ns
  induction ns with
  | nil =>
    intro os h
    rw [List.length_nil] at h
    rw [List.eq_nil_of_length_eq_zero h]
    simp
  | cons n ns ih =>
    intro os h
    cases os with
    | nil => simp
    | cons o os =>
      simp only [List.length_cons] at h
      simp [ih os (by omega)]

/-- C6: the compile-time trace invokes the workflow function body with
exactly one keyword argument per declared input name — the synthesized
kwargs carry the declared input names in order, each paired with a pending
reference of the sentinel global-input node id and the input's own variable
name — and the compiled definition depends on the body only through its
value at exactly those kwargs. -/
theorem C6_trace_input_kwargs (fn g : PyFunction) (hsig : fn.sig = g.sig)
    (hval : fn.call_compile (make_input_kwargs fn.sig) = g.call_compile (make_input_kwargs g.sig)) :
    (make_input_kwargs fn.sig).map Prod.fst = fn.sig.inputs.map Prod.fst
    ∧ (∀ kv ∈ make_input_kwargs fn.sig, kv.2 = OutputReference.mk GLOBAL_INPUT_NODE_ID kv.1)
    ∧ (workflow fn).map Workflow.sdk_workflow = (workflow g).map Workflow.sdk_workflow := by
  refine ⟨?_, ?_, ?_⟩
  · simp [make_input_kwargs]
  · intro kv hkv
    obtain ⟨a, _, rfl⟩ := List.mem_map.mp hkv
    rfl
  · rw [hsig] at hval
    simp only [workflow, transform_signature_to_typed_interface]
    rw [hsig, hval]
    cases hb : build_output_bindings (g.sig.outputs.map Prod.fst) (g.call_compile (make_input_kwargs g.sig)).2 <;>
      simp [hb, Except.map]

/-- Witness for C6: two concrete workflow functions over the same signature
that agree on the synthesized global-input kwargs compile to the same
definition. -/
theorem C6_trace_input_kwargs_witness :
    (workflow fnC6a).map Workflow.sdk_workflow = (workflow fnC6b).map Workflow.sdk_workflow :=
  (C6_trace_input_kwargs fnC6a fnC6b rfl rfl).2.2

/-- C7: for a workflow with at least one declared output whose traced body
returns a tuple of pending references of matching length, the compiled
output bindings are exactly one `Binding` per declared output, with the
declared output names in declaration order, each wrapping the positionally
corresponding traced output. -/
theorem C7_output_bindings_positional (fn : PyFunction) (w : Workflow)
    (h0 : 0 < fn.sig.outputs.length)
    (hlen : (fn.call_compile (make_input_kwargs fn.sig)).2.length = fn.sig.outputs.length)
    (hw : workflow fn = .ok w) :
    w.sdk_workflow.output_bindings
      = List.zipWith (fun n o => Binding.mk n (BindingData.mk o))
          (fn.sig.outputs.map Prod.fst) (fn.call_compile (make_input_kwargs fn.sig)).2
    ∧ w.sdk_workflow.output_bindings.map Binding.var = fn.sig.outputs.map Prod.fst
    ∧ w.sdk_workflow.output_bindings.map (fun b => b.binding.promise)
        = (fn.call_compile (make_input_kwargs fn.sig)).2 := by
  have hbo : build_output_bindings (fn.sig.outputs.map Prod.fst) (fn.call_compile (make_input_kwargs fn.sig)).2
      = .ok (List.zipWith (fun n o => Binding.mk n (BindingData.mk o))
          (fn.sig.outputs.map Prod.fst) (fn.call_compile (make_input_kwargs fn.sig)).2) := by
    unfold build_output_bindings
    rw [if_pos (by simpa using h0)]
    have h := build_bindings_loop_enumFrom (fn.sig.outputs.map Prod.fst)
      (fn.call_compile (make_input_kwargs fn.sig)).2 0
      (by simp only [Nat.zero_add, hlen, List.length_map]; exact le_refl _)
    simpa [List.enum] using h
  unfold workflow at hw
  simp only [transform_signature_to_typed_interface, hbo] at hw
  simp only [bind, Except.bind, pure, Except.pure, Except.ok.injEq] at hw
  subst hw
  refine ⟨rfl, ?_, ?_⟩
  · exact map_var_zipWith _ _ (by simp [hlen])
  · exact map_promise_zipWith _ _ (by simp [hlen])

/-- Witness for C7 at a concrete two-output workflow. -/
theorem C7_output_bindings_positional_witness :
    wEx2compiled.sdk_workflow.output_bindings
      = List.zipWith (fun n o => Binding.mk n (BindingData.mk o))
          (fnEx2.sig.outputs.map Prod.fst) (fnEx2.call_compile (make_input_kwargs fnEx2.sig)).2
    ∧ wEx2compiled.sdk_workflow.output_bindings.map Binding.var = fnEx2.sig.outputs.map Prod.fst
    ∧ wEx2compiled.sdk_workflow.output_bindings.map (fun b => b.binding.promise)
        = (fnEx2.call_compile (make_input_kwargs fnEx2.sig)).2 :=
  C7_output_bindings_positional fnEx2 wEx2compiled (by decide) rfl rfl

/-- The invoker's output loop, run over declared output names enumerated
from `k` against a returned tuple that is long enough, extends the literal
map with one positionally matched entry per name, provided the names are
distinct and fresh for the accumulator. -/
theorem build_output_literal_map_enumFrom (ps : List Promise) :
    ∀ (xs : List String) (k : Nat) (m : List (String × Literal)),
    k + xs.length ≤ ps.length →
    xs.Nodup →
    (∀ x ∈ xs, ∀ q ∈ m, q.1 ≠ x) →
    build_output_literal_map ps (List.enumFrom k xs) m
      = .ok (m ++ List.zipWith (fun n p => (n, p.val)) xs (ps.drop k)) := by
  intro xs
  induction xs with
  | nil =>
    intro k m hk hnd hfresh
    simp [build_output_literal_map, List.enumFrom]
  | cons x xs ih =>
    intro k m hk hnd hfresh
    have hklt : k < ps.length := by
      simp only [List.length_cons] at hk
      omega
    have hany : m.any (fun kv => kv.1 == x) = false := by
      rw [List.any_eq_false]
      intro q hq
      simpa using hfresh x (List.mem_cons_self x xs) q hq
    simp only [List.enumFrom, build_output_literal_map, List.get?_eq_getElem?,
      List.getElem?_eq_getElem hklt, dictInsert, hany, Bool.false_eq_true, if_false]
    rw [ih (k + 1) (m ++ [(x, ps[k].val)])
      (by simp only [List.length_cons] at hk; omega)
      ((List.nodup_cons.mp hnd).2)
      ?_]
    · simp only [List.drop_eq_getElem_cons hklt, List.zipWith_cons_cons, List.append_assoc,
        List.singleton_append]
    · intro y hy q hq
      rcases List.mem_append.mp hq with hqm | hqx
      · exact hfresh y (List.mem_cons_of_mem x hy) q hqm
      · have hq1 : q = (x, ps[k].val) := List.mem_singleton.mp hqx
        intro heq
        apply (List.nodup_cons.mp hnd).1
        have hxy : x = y := by rw [hq1] at heq; exact heq
        rw [hxy]
        exact hy

/-- A literal map with anything other than exactly one entry converts to
the dictionary of entrywise native values. -/
theorem idl_literal_map_on_long (m : List (String × Literal)) (h : m.length ≠ 1) :
    idl_literal_map_to_python_value m
      = .dict (m.map (fun kv => (kv.1, idl_literal_to_python_value kv.2))) := by
  cases m with
  | nil => rfl
  | cons a m' =>
    cases m' with
    | nil => simp at h
    | cons b m'' =>
      obtain ⟨k1, l1⟩ := a
      obtain ⟨k2, l2⟩ := b
      rfl

/-- C1: the value a local invocation returns is determined by the declared
output count.  Zero declared outputs: the invoker returns `None`.  One
declared output and the body returning a single ready Promise: the invoker
returns the bare native value of that Promise's literal — never a
dictionary.  More than one declared output and the body returning a tuple
of ready Promises of matching length: the invoker returns a dictionary
with exactly one entry per declared output name, in declaration order,
positionally matched against the returned tuple. -/
theorem C1_local_return_shape (w : Workflow) (ctx : FlyteContext)
    (kwargs : List (String × PyVal)) (lits : List (String × Literal))
    (hconv : convert_inputs w.sdk_workflow.interface.inputs kwargs = .ok lits) :
    (w.sdk_workflow.interface.outputs = [] →
       Workflow.local_execute w ctx kwargs = .ok PyVal.none)
    ∧ (∀ (nv : String × Variable) (p : Promise),
         w.sdk_workflow.interface.outputs = [nv] →
         w.workflow_function.call_local (lits.map (fun kv => (kv.1, Promise.mk kv.1 kv.2))) = FnOutputs.promise p →
         Workflow.local_execute w ctx kwargs = .ok (idl_literal_to_python_value p.val)
         ∧ ∀ kvs, idl_literal_to_python_value p.val ≠ PyVal.dict kvs)
    ∧ (∀ (ps : List Promise),
         1 < w.sdk_workflow.interface.outputs.length →
         (w.sdk_workflow.interface.outputs.map Prod.fst).Nodup →
         w.workflow_function.call_local (lits.map (fun kv => (kv.1, Promise.mk kv.1 kv.2))) = FnOutputs.tuple ps →
         ps.length = w.sdk_workflow.interface.outputs.length →
         Workflow.local_execute w ctx kwargs
           = .ok (PyVal.dict (List.zipWith (fun n p => (n, idl_literal_to_python_value p.val))
               (w.sdk_workflow.interface.outputs.map Prod.fst) ps))) := by
  refine ⟨?_, ?_, ?_⟩
  · intro hout
    simp [Workflow.local_execute, hconv, hout, bind, Except.bind, pure, Except.pure]
  · intro nv p hout hfo
    constructor
    · simp [Workflow.local_execute, hconv, hout, hfo, bind, Except.bind, pure, Except.pure,
        dictInsert, idl_literal_map_to_python_value, List.headI]
    · intro kvs
      cases hval : p.val <;> simp [idl_literal_to_python_value]
  · intro ps h1 hnd hfo hlen
    have hnames : (w.sdk_workflow.interface.outputs.map Prod.fst).length
        = w.sdk_workflow.interface.outputs.length := List.length_map _ _
    have hbuild := build_output_literal_map_enumFrom ps
      (w.sdk_workflow.interface.outputs.map Prod.fst) 0 []
      (by rw [hnames]; omega)
      hnd
      (by intro x hx q hq; simp at hq)
    rw [List.drop_zero, List.nil_append] at hbuild
    have hzlen : (List.zipWith (fun n p => (n, p.val))
        (w.sdk_workflow.interface.outputs.map Prod.fst) ps).length ≠ 1 := by
      rw [List.length_zipWith, hnames, hlen]
      omega
    simp only [Workflow.local_execute, hconv, bind, Except.bind]
    have h1n : 1 < (w.sdk_workflow.interface.outputs.map Prod.fst).length := by
      rw [hnames]; exact h1
    simp only [hfo, if_pos h1n]
    rw [show (w.sdk_workflow.interface.outputs.map Prod.fst).enum
        = List.enumFrom 0 (w.sdk_workflow.interface.outputs.map Prod.fst) from rfl]
    rw [hbuild]
    simp only [pure, Except.pure, idl_literal_map_on_long _ hzlen, List.map_zipWith]

/-- Witness for C1 at a concrete two-output workflow invoked locally with
one convertible keyword argument. -/
theorem C1_local_return_shape_witness :
    Workflow.local_execute wEx2compiled ctx0 [("x", PyVal.int 3)]
      = .ok (PyVal.dict [("o0", PyVal.int 7), ("o1", PyVal.int 8)]) :=
  (C1_local_return_shape wEx2compiled ctx0 [("x", PyVal.int 3)] [("x", Literal.int 3)] rfl).2.2
    [Promise.mk "t0" (Literal.int 7), Promise.mk "t1" (Literal.int 8)]
    (by decide) (by decide) rfl rfl
